import Mathlib

/-
A shallow embedding of the smtp2tg SMTP-to-Telegram gateway
(src/mail.rs, src/telegram.rs, src/utils.rs, src/main.rs), with theorems
about recipient resolution, message composition, attachment batching and
failure handling.

Modelling conventions:
- Rust String byte length (str::len) is modelled by utf8Len below.
- usize subtraction is modelled with release-profile wrapping semantics
  (usizeSub); debug builds would abort on overflow instead.
- A Rust panic is modelled by an Option result being none.
- ChatPeerId is modelled as Int; HashMap-based recipient tables are
  association lists with unique keys; HashSet of recipients is a
  deduplicated list in first-insertion order.
- Telegram API calls are events (TgEvent); whether each call succeeds is
  an oracle (TgOracle), since the network is external to the repository.
-/

namespace Smtp2tg

deriving instance DecidableEq for Except

/-- Byte size of one scalar value in UTF-8, as counted by Rust str::len. -/
def charUtf8Size (c : Char) : Nat :=
  if c.toNat < 128 then 1
  else if c.toNat < 2048 then 2
  else if c.toNat < 65536 then 3
  else 4

/-- Model of Rust str::len: the UTF-8 byte length of a string. -/
def utf8Len (s : String) : Nat :=
  s.data.foldl (fun n c => n + charUtf8Size c) 0

/-- Modulus of the 64-bit usize arithmetic of the target. -/
def USIZE_MOD : Nat := 2 ^ 64

/-- Rust release-profile usize subtraction: wraps on underflow. -/
def usizeSub (a b : Nat) : Nat := (USIZE_MOD + a - b) % USIZE_MOD

/-- Model of Vec::join / slice join with a separator string. -/
def joinSep (sep : String) : List String → String
  | [] => ""
  | [x] => x
  | x :: xs => x ++ sep ++ joinSep sep xs

/-- The character class matched by RE_SPECIAL in src/main.rs. -/
def specialChars : List Char :=
  ['-', '_', '*', '[', ']', '(', ')', '~', Char.ofNat 96, '>', '#', '+',
   '|', Char.ofNat 123, Char.ofNat 125, '.', '!']

/-- encode (src/main.rs): RE_SPECIAL.replace_all(text, "\\$1") -- prefixes
every special character with a backslash. -/
def encode (s : String) : String :=
  String.mk (s.data.foldr
    (fun c acc => if specialChars.contains c then '\\' :: c :: acc else c :: acc) [])

/-- Segments of a character list split at newline characters. -/
def splitNl : List Char → List (List Char)
  | [] => [[]]
  | c :: rest =>
    if c = '\n' then [] :: splitNl rest
    else
      match splitNl rest with
      | [] => [[c]]
      | seg :: segs => (c :: seg) :: segs

/-- Removes one trailing occurrence of the given character. -/
def stripLast (c : Char) (l : List Char) : List Char :=
  if l.getLast? = some c then l.dropLast else l

/-- Strips a trailing carriage return from every segment except the final
one (the final inclusive segment of str::lines carries no newline and is
kept as is). -/
def mapInitStrip : List (List Char) → List String
  | [] => []
  | [l] => [String.mk l]
  | l :: ls => String.mk (stripLast '\r' l) :: mapInitStrip ls

/-- Model of Rust str::lines: split at newlines, strip a carriage return
preceding each newline, no empty final line for a trailing newline. -/
def rustLines (s : String) : List String :=
  if s.data = [] then []
  else if s.data.getLast? = some '\n' then
    ((splitNl s.data).dropLast).map (fun l => String.mk (stripLast '\r' l))
  else mapInitStrip (splitNl s.data)

/-- Bool test for substring containment, used to state the validator model. -/
def containsSub (s pat : String) : Bool :=
  (List.range (s.data.length + 1)).any (fun i => pat.data.isPrefixOf (s.data.drop i))

/-- The Telegram preformatted-block closing marker guarded against by the
validator (the injection vector named by the spec and by src/tests.rs). -/
def tgCloseMarker : String := "</code>"

/-- Modelled from the spec: `Html::parse_fragment(text).errors` comes from
the external scraper/html5ever crate, which is not code of this repository.
Per the spec (section 4.3) the check detects exactly an occurrence of the
platform closing-block marker; the error text is the one asserted by the
repository test src/tests.rs (check_invalid). -/
def fragment_errors (text : String) : List String :=
  if containsSub text tgCloseMarker then ["Telegram closing tag found."] else []

/-- validate (src/utils.rs): parse the text as an HTML fragment and fail
when the parser reports errors, otherwise return the input text itself. -/
def validate (text : String) : Except String String :=
  if !(fragment_errors text).isEmpty then
    Except.error (joinSep "\n" (fragment_errors text))
  else Except.ok text

/-- Attachment (src/utils.rs): raw bytes plus a display file name. -/
structure Attachment where
  data : List Nat
  name : String
deriving DecidableEq

/-- A Telegram API request issued by the server, as an observable event. -/
inductive TgEvent
  | debug (msg : String)
  | send (chat : Int) (msg : String)
  | sendgroup (chat : Int) (files : List Attachment) (msg : String)
deriving DecidableEq

/-- The failure cases of relay_mail (anyhow error messages in src/mail.rs,
mirrored by the MyError enum of src/main.rs). -/
inductive RelayError
  | noHeaders
  | parseFailed
  | relayDenied
  | recipientNotFound (name : String)
  | noText
  | noTextPart
  | noFilePart
  | tgFailed (ev : TgEvent)
deriving DecidableEq

/-- The mailin_embedded responses used by the handler. -/
inductive Response
  | OK
  | NO_MAILBOX
  | INTERNAL_ERROR
  | INVALID_CREDENTIALS
deriving DecidableEq

/-- SomeHeaders (src/mail.rs): envelope data stored by data_start. The
source field names from and to are Lean keywords, hence the underscores. -/
structure SomeHeaders where
  from_ : String
  to_ : List String
deriving DecidableEq

/-- A header value on a message part, as seen through mail_parser: either a
ContentType value with an optional name attribute, or some other value. -/
inductive HeaderVal
  | contentType (name : Option String)
  | other
deriving DecidableEq

structure MailHeader where
  name : String
  value : HeaderVal
deriving DecidableEq

/-- One body part or attachment of the parsed message. -/
structure MailPart where
  contents : List Nat
  headers : List MailHeader
deriving DecidableEq

/-- The parsed-message view consumed from mail_parser. bodyText0 is the
result of body_text(0); mail_parser guarantees it is some whenever
text_body_count() is positive, which theorems take as a hypothesis. -/
structure ParsedMail where
  subject : Option String
  threadName : Option String
  date : Option String
  bodyText0 : Option String
  htmlParts : Nat
  textParts : List MailPart
  attachments : List MailPart

/-- The configuration-derived state of MailServer (src/mail.rs): recipient
table, default chat, configured domain set (lowercased, validated at
startup), the unknown-address policy flag and the enabled header fields. -/
structure MailServer where
  recipients : List (String × Int)
  default : Int
  domains : List String
  relay : Bool
  fields : List String

/-- Oracle deciding which Telegram API calls succeed; the network is
external to the repository. -/
structure TgOracle where
  debugOk : String → Bool
  sendOk : Int → String → Bool
  groupOk : Int → String → Bool

/-- Bool test for the regex class [a-z0-9]. -/
def isAZ09 (c : Char) : Bool :=
  decide ((97 ≤ c.toNat ∧ c.toNat ≤ 122) ∨ (48 ≤ c.toNat ∧ c.toNat ≤ 57))

/-- Bool test for the regex class [-a-z0-9]. -/
def isUserChar2 (c : Char) : Bool := c = '-' || isAZ09 c

/-- Whether the address regex of MailServer::new,
  "^(?P<user>[a-z0-9][-a-z0-9])(@({domains}))$",
matches the whole string: exactly two local-part characters, an @ sign and
one of the configured (escaped) domains. With an empty domain set the
joined alternation is empty and the domain group matches the empty string. -/
def addressCaptures (domains : List String) (s : String) : Bool :=
  match s.data with
  | c0 :: c1 :: '@' :: d =>
    isAZ09 c0 && isUserChar2 c1 &&
      (domains.contains (String.mk d) || (domains.isEmpty && d.isEmpty))
  | _ => false

/-- First-match association list lookup, modelling HashMap::get over a map
with unique keys. -/
def lookupA : List (String × Int) → String → Option Int
  | [], _ => none
  | (k, v) :: rest, n => if k = n then some v else lookupA rest n

/-- TelegramTransport::get (src/telegram.rs): recipient lookup that fails
with a context message when the name is not configured. -/
def tg_get (recipients : List (String × Int)) (name : String) : Except RelayError Int :=
  match lookupA recipients name with
  | some id => Except.ok id
  | none => Except.error (RelayError.recipientNotFound name)

/-- MailServer::get_id (src/mail.rs). When the address regex matches, the
source executes caps["name"], but the pattern defines its capture group as
"user"; the regex crate Index impl aborts the process when the named group
does not exist, so a successful match is a panic, modelled as none. When
the regex does not match, the raw address is looked up and every miss
falls back to the default chat. -/
def get_id (srv : MailServer) (name : String) : Option (Except RelayError Int) :=
  if addressCaptures srv.domains name then
    none
  else
    match tg_get srv.recipients name with
    | Except.ok addr => some (Except.ok addr)
    | Except.error _ => some (Except.ok srv.default)

/-- Handler::rcpt (src/mail.rs): accept everything under the relay policy;
otherwise accept when get_id returns Ok and answer NO_MAILBOX on Err. -/
def rcpt (srv : MailServer) (addr : String) : Option Response :=
  if srv.relay then some Response.OK
  else
    match get_id srv addr with
    | some (Except.ok _) => some Response.OK
    | some (Except.error _) =>
      some (if srv.relay then Response.OK else Response.NO_MAILBOX)
    | none => none

/-- The outward shape of one TelegramTransport::sendgroup call: either a
single SendMediaGroup batch whose items carry a file name and an optional
caption, or a single SendDocument with a caption. -/
inductive SendAction
  | mediaGroup (items : List (String × Option String))
  | document (name : String) (caption : String)
deriving DecidableEq

/-- The batch items built by the sendgroup loop (src/telegram.rs): pos
starts at media.len() and counts down; the item seen when pos == 1 (the
last one) receives the caption. -/
def sendgroupItems (msg : String) : List Attachment → Nat → List (String × Option String)
  | [], _ => []
  | f :: rest, pos =>
    (f.name, if pos = 1 then some msg else none) :: sendgroupItems msg rest (pos - 1)

/-- TelegramTransport::sendgroup (src/telegram.rs): more than one
attachment issues one SendMediaGroup batch; exactly one uses SendDocument;
media[0] on an empty vector is a panic (never reached from relay_mail). -/
def sendgroup (media : List Attachment) (msg : String) : Option SendAction :=
  if media.length > 1 then
    some (SendAction.mediaGroup (sendgroupItems msg media media.length))
  else
    match media with
    | [] => none
    | f :: _ => some (SendAction.document f.name msg)

/-! ### Message composition and delivery (MailServer::relay_mail, src/mail.rs) -/

def noRcptMsg : String := "No recipient or envelope address."

def badCTMsg : String := "Attachment has bad ContentType header."

def mismatchMsg (h t : Nat) : String :=
  "Hm, we have " ++ toString h ++ " HTML parts and " ++ toString t ++ " text parts."

/-- The short_headers vector: the from and date lines, controlled by the
enabled fields. -/
def shortHeaders (fields : List String) (hdrs : SomeHeaders) (mail : ParsedMail) : List String :=
  (if fields.contains "from" then ["__*From:*__ `" ++ encode hdrs.from_ ++ "`"] else [])
  ++ (if fields.contains "date" then
        match mail.date with
        | some d => ["__*Date:*__ `" ++ d ++ "`"]
        | none => []
      else [])

/-- The reply vector before the body block: the optional subject (or
thread) line, then the space-joined short_headers line, which is pushed
even when short_headers is empty. -/
def headerLines (fields : List String) (hdrs : SomeHeaders) (mail : ParsedMail) : List String :=
  (if fields.contains "subject" then
    match mail.subject with
    | some s => ["__*Subject:*__ `" ++ encode s ++ "`"]
    | none =>
      match mail.threadName with
      | some th => ["__*Thread:*__ `" ++ encode th ++ "`"]
      | none => []
   else [])
  ++ [joinSep " " (shortHeaders fields hdrs mail)]

/-- header_size: the byte length of the space-joined reply plus one. -/
def headerSize (fields : List String) (hdrs : SomeHeaders) (mail : ParsedMail) : Nat :=
  utf8Len (joinSep " " (headerLines fields hdrs mail)) + 1

/-- Body selection: when a text body part exists, body_text(0) is fetched
(its absence is the NoText failure) and used as the body when its byte
length is strictly below the usize difference 4096 - header_size; text_num
is set to 1 to mark text part 0 as consumed. -/
def selectBody (mail : ParsedMail) (hsz : Nat) : Except RelayError (String × Nat) :=
  if 0 < mail.textParts.length then
    match mail.bodyText0 with
    | none => Except.error RelayError.noText
    | some t =>
      if utf8Len t < usizeSub 4096 hsz then Except.ok (t, 1) else Except.ok ("", 0)
  else Except.ok ("", 0)

/-- The full reply vector: header lines, an opening fence, the body lines
and a closing fence; the fences are pushed even when no body was selected.
Also returns the consumed text part count. -/
def composeReply (fields : List String) (hdrs : SomeHeaders) (mail : ParsedMail) :
    Except RelayError (List String × Nat) :=
  match selectBody mail (headerSize fields hdrs mail) with
  | Except.error e => Except.error e
  | Except.ok (body, textNum) =>
    Except.ok (headerLines fields hdrs mail ++ ["```"] ++ rustLines body ++ ["```"], textNum)

/-- One of the two part-collection while loops: reads n parts starting at
index i through the indexed accessor, failing when an index is absent. -/
def collectLoop (part : Nat → Option MailPart) (err : RelayError) :
    Nat → Nat → Except RelayError (List MailPart)
  | _, 0 => Except.ok []
  | i, n + 1 =>
    match part i with
    | none => Except.error err
    | some p =>
      match collectLoop part err (i + 1) n with
      | Except.error e => Except.error e
      | Except.ok rest => Except.ok (p :: rest)

/-- files_to_send: the unconsumed text parts in index order followed by
all attachments in index order. -/
def collectParts (mail : ParsedMail) (textNum : Nat) : Except RelayError (List MailPart) :=
  match collectLoop (fun i => mail.textParts.get? i) RelayError.noTextPart
      textNum (mail.textParts.length - textNum) with
  | Except.error e => Except.error e
  | Except.ok ts =>
    match collectLoop (fun i => mail.attachments.get? i) RelayError.noFilePart
        0 mail.attachments.length with
    | Except.error e => Except.error e
    | Except.ok fs => Except.ok (ts ++ fs)

/-- The filename scan over one chunk headers list: each Content-Type
header with a name attribute overwrites the filename; a Content-Type
header with a non-ContentType value raises a diagnostic whose own failure
propagates. -/
def filenameLoop (o : TgOracle) : List MailHeader → Option String →
    List TgEvent × Except RelayError (Option String)
  | [], fn => ([], Except.ok fn)
  | h :: rest, fn =>
    if h.name = "Content-Type" then
      match h.value with
      | HeaderVal.contentType nm =>
        filenameLoop o rest (match nm with | some f => some f | none => fn)
      | HeaderVal.other =>
        if o.debugOk badCTMsg then
          match filenameLoop o rest fn with
          | (evs, r) => (TgEvent.debug badCTMsg :: evs, r)
        else
          ([TgEvent.debug badCTMsg],
           Except.error (RelayError.tgFailed (TgEvent.debug badCTMsg)))
    else filenameLoop o rest fn

/-- Builds the Attachment vector for one delivery; an undeclared filename
defaults to Attachment.txt. -/
def buildFiles (o : TgOracle) : List MailPart → List TgEvent × Except RelayError (List Attachment)
  | [] => ([], Except.ok [])
  | c :: rest =>
    match filenameLoop o c.headers none with
    | (evs, Except.error e) => (evs, Except.error e)
    | (evs, Except.ok fn) =>
      match buildFiles o rest with
      | (evs2, Except.error e) => (evs ++ evs2, Except.error e)
      | (evs2, Except.ok atts) =>
        (evs ++ evs2,
         Except.ok (⟨c.contents, match fn with | some f => f | none => "Attachment.txt"⟩ :: atts))

/-- Delivery to one chat: a sendgroup call when there are files to send,
otherwise a plain send; a failed call propagates as an error. -/
def dispatchOne (o : TgOracle) (chat : Int) (chunks : List MailPart) (msg : String) :
    List TgEvent × Except RelayError Unit :=
  if chunks.isEmpty then
    ([TgEvent.send chat msg],
     if o.sendOk chat msg then Except.ok ()
     else Except.error (RelayError.tgFailed (TgEvent.send chat msg)))
  else
    match buildFiles o chunks with
    | (evs, Except.error e) => (evs, Except.error e)
    | (evs, Except.ok files) =>
      (evs ++ [TgEvent.sendgroup chat files msg],
       if o.groupOk chat msg then Except.ok ()
       else Except.error (RelayError.tgFailed (TgEvent.sendgroup chat files msg)))

/-- The per-recipient delivery loop; the files vector is rebuilt for every
chat, as in the source, and the first failure aborts the loop. -/
def dispatchLoop (o : TgOracle) (chunks : List MailPart) (msg : String) :
    List Int → List TgEvent × Except RelayError Unit
  | [] => ([], Except.ok ())
  | chat :: rest =>
    match dispatchOne o chat chunks msg with
    | (evs, Except.error e) => (evs, Except.error e)
    | (evs, Except.ok _) =>
      match dispatchLoop o chunks msg rest with
      | (evs2, r) => (evs ++ evs2, r)

/-- The recipient insertion loop: get_id on every envelope address (a
panic propagates as none), inserting into the HashSet, modelled as a
deduplicated list in first-insertion order. -/
def resolveLoop (srv : MailServer) : List String → List Int →
    Option (Except RelayError (List Int))
  | [], acc => some (Except.ok acc)
  | a :: rest, acc =>
    match get_id srv a with
    | none => none
    | some (Except.error e) => some (Except.error e)
    | some (Except.ok id) =>
      resolveLoop srv rest (if acc.contains id then acc else acc ++ [id])

/-- The recipient-resolution block of relay_mail: bail out when the
envelope list is empty under the deny policy; otherwise resolve every
address, and when the set stayed empty emit one diagnostic and insert the
default chat. -/
def resolveStage (o : TgOracle) (srv : MailServer) (to_ : List String) :
    Option (List TgEvent × Except RelayError (List Int)) :=
  if to_.isEmpty && !srv.relay then
    some ([], Except.error RelayError.relayDenied)
  else
    match resolveLoop srv to_ [] with
    | none => none
    | some (Except.error e) => some ([], Except.error e)
    | some (Except.ok rcptSet) =>
      if rcptSet.isEmpty then
        some ([TgEvent.debug noRcptMsg],
          if o.debugOk noRcptMsg then Except.ok [srv.default]
          else Except.error (RelayError.tgFailed (TgEvent.debug noRcptMsg)))
      else some ([], Except.ok rcptSet)

/-- Composition, part collection and dispatch: the tail of relay_mail
after resolution and the part-count diagnostic. -/
def relayRest (o : TgOracle) (srv : MailServer) (hdrs : SomeHeaders) (mail : ParsedMail)
    (evs : List TgEvent) (rcptSet : List Int) :
    Option (List TgEvent × Except RelayError Unit) :=
  match composeReply srv.fields hdrs mail with
  | Except.error e => some (evs, Except.error e)
  | Except.ok (reply, textNum) =>
    match collectParts mail textNum with
    | Except.error e => some (evs, Except.error e)
    | Except.ok chunks =>
      match dispatchLoop o chunks (joinSep "\n" reply) rcptSet with
      | (evs2, r) => some (evs ++ evs2, r)

/-- MailServer::relay_mail (src/mail.rs), as a function of the stored
headers, the parse result and the transport oracle, returning the Telegram
requests issued and the overall result; none models a panic. The part
count diagnostic sits between header sizing and body selection in the
source, but composition is pure, so only its event and failure order is
observable and both are preserved here. -/
def relay_mail (o : TgOracle) (srv : MailServer) (headers : Option SomeHeaders)
    (parsed : Option ParsedMail) : Option (List TgEvent × Except RelayError Unit) :=
  match headers with
  | none => some ([], Except.error RelayError.noHeaders)
  | some hdrs =>
    match parsed with
    | none => some ([], Except.error RelayError.parseFailed)
    | some mail =>
      match resolveStage o srv hdrs.to_ with
      | none => none
      | some (evs1, Except.error e) => some (evs1, Except.error e)
      | some (evs1, Except.ok rcptSet) =>
        if mail.htmlParts = mail.textParts.length then
          relayRest o srv hdrs mail evs1 rcptSet
        else
          if o.debugOk (mismatchMsg mail.htmlParts mail.textParts.length) then
            relayRest o srv hdrs mail
              (evs1 ++ [TgEvent.debug (mismatchMsg mail.htmlParts mail.textParts.length)])
              rcptSet
          else
            some (evs1 ++ [TgEvent.debug (mismatchMsg mail.htmlParts mail.textParts.length)],
              Except.error (RelayError.tgFailed
                (TgEvent.debug (mismatchMsg mail.htmlParts mail.textParts.length))))

/-- Short rendering of a relay error, standing in for the Debug formatting
of the error value interpolated by data_end. -/
def errText : RelayError → String
  | RelayError.noHeaders => "Required headers were not found."
  | RelayError.parseFailed => "Failed to parse mail."
  | RelayError.relayDenied => "Relaying is disabled, and there is no destination address"
  | RelayError.recipientNotFound n => "Recipient " ++ n ++ " not found in configuration"
  | RelayError.noText => "Failed to extract text from message"
  | RelayError.noTextPart => "Failed to get text part from message."
  | RelayError.noFilePart => "Failed to get file part from message."
  | RelayError.tgFailed _ => "telegram request failed"

/-- The fallback diagnostic text of data_end. -/
def failMsg (e : RelayError) : String := "Sending emails failed:\n" ++ errText e

/-- Handler::data_end (src/mail.rs): relay the mail; on failure set the
temporary-failure response and attempt one fallback diagnostic to the
default chat, whose own failure is only written to the local stderr sink
and cannot change the response. -/
def data_end (o : TgOracle) (srv : MailServer) (headers : Option SomeHeaders)
    (parsed : Option ParsedMail) : Option (Response × List TgEvent) :=
  match relay_mail o srv headers parsed with
  | none => none
  | some (evs, Except.ok _) => some (Response.OK, evs)
  | some (evs, Except.error e) =>
    some (Response.INTERNAL_ERROR, evs ++ [TgEvent.debug (failMsg e)])

/-! ### Concrete fixtures -/

/-- Oracle on which every Telegram API call succeeds. -/
def okO : TgOracle := ⟨fun _ => true, fun _ _ => true, fun _ _ => true⟩

/-- Oracle on which debug sends fail while regular sends succeed. -/
def badO : TgOracle := ⟨fun _ => false, fun _ _ => true, fun _ _ => true⟩

def srvAlice : MailServer :=
  { recipients := [("alice", 111)], default := 0,
    domains := ["example.com"], relay := false, fields := [] }

def srvAB : MailServer :=
  { recipients := [("ab", 111)], default := 0,
    domains := ["example.com"], relay := false, fields := [] }

def srv3 : MailServer :=
  { recipients := [], default := 0, domains := ["example.com"],
    relay := true, fields := ["subject"] }

def srvDeny : MailServer :=
  { recipients := [], default := 0, domains := ["example.com"],
    relay := false, fields := [] }

def part0 : MailPart := { contents := [], headers := [] }

def hdr3 : SomeHeaders := { from_ := "sender@elsewhere", to_ := ["someone@nowhere"] }

def hdrEmpty : SomeHeaders := { from_ := "sender@elsewhere", to_ := [] }

def hdrX : SomeHeaders := { from_ := "sender@elsewhere", to_ := ["u@v"] }

/-- A message whose only text body is the Telegram closing marker. -/
def mail3 : ParsedMail :=
  { subject := some "Hi", threadName := none, date := none,
    bodyText0 := some "</code>", htmlParts := 1,
    textParts := [part0], attachments := [] }

/-- A 4075 byte body: exactly at the size budget for a 21 byte header. -/
def t4075 : String := String.mk (List.replicate 4075 'a')

def mail4 : ParsedMail :=
  { subject := some "Hi", threadName := none, date := none,
    bodyText0 := some t4075, htmlParts := 1,
    textParts := [part0], attachments := [] }

/-- One HTML part, no text part: triggers the part-count diagnostic. -/
def mail8 : ParsedMail :=
  { subject := some "Hi", threadName := none, date := none,
    bodyText0 := none, htmlParts := 1, textParts := [], attachments := [] }

def mailEmpty : ParsedMail :=
  { subject := none, threadName := none, date := none,
    bodyText0 := none, htmlParts := 0, textParts := [], attachments := [] }

/-- A 4200 byte subject, pushing header_size beyond 4096. -/
def subjLong : String := String.mk (List.replicate 4200 'a')

def t4100 : String := String.mk (List.replicate 4100 'a')

def mailLong : ParsedMail :=
  { subject := some subjLong, threadName := none, date := none,
    bodyText0 := some t4100, htmlParts := 1,
    textParts := [part0], attachments := [] }

/-! ### Helper lemmas -/

theorem charUtf8Size_a : charUtf8Size 'a' = 1 := rfl

theorem foldl_size_replicate_a (n : Nat) : ∀ i : Nat,
    List.foldl (fun n c => n + charUtf8Size c) i (List.replicate n 'a') = i + n := by
  induction n with
  | zero => intro i; simp
  | succ k ih =>
    intro i
    rw [List.replicate_succ, List.foldl_cons, ih (i + charUtf8Size 'a'), charUtf8Size_a]
    omega

theorem utf8Len_mk_replicate_a (n : Nat) :
    utf8Len (String.mk (List.replicate n 'a')) = n := by
  show List.foldl (fun n c => n + charUtf8Size c) 0 (List.replicate n 'a') = n
  rw [foldl_size_replicate_a n 0, Nat.zero_add]

theorem encode_foldr_replicate_a : ∀ n : Nat,
    List.foldr (fun c acc => if specialChars.contains c then '\\' :: c :: acc else c :: acc)
      [] (List.replicate n 'a') = List.replicate n 'a' := by
  intro n
  induction n with
  | zero => rfl
  | succ k ih =>
    rw [List.replicate_succ, List.foldr_cons, ih, if_neg (by decide)]

theorem encode_mk_replicate_a (n : Nat) :
    encode (String.mk (List.replicate n 'a')) = String.mk (List.replicate n 'a') := by
  unfold encode
  congr 1
  exact encode_foldr_replicate_a n

theorem string_data_append (s t : String) : (s ++ t).data = s.data ++ t.data := rfl

theorem foldl_size_init (l : List Char) : ∀ i : Nat,
    List.foldl (fun n c => n + charUtf8Size c) i l =
      i + List.foldl (fun n c => n + charUtf8Size c) 0 l := by
  induction l with
  | nil => intro i; simp
  | cons c cs ih =>
    intro i
    rw [List.foldl_cons, List.foldl_cons, ih (i + charUtf8Size c), ih (0 + charUtf8Size c)]
    omega

theorem utf8Len_append (s t : String) : utf8Len (s ++ t) = utf8Len s + utf8Len t := by
  unfold utf8Len
  rw [string_data_append, List.foldl_append, foldl_size_init]

theorem selectBody_some (mail : ParsedMail) (hsz : Nat) (t : String)
    (htp : 0 < mail.textParts.length) (hbt : mail.bodyText0 = some t) :
    selectBody mail hsz =
      Except.ok (if utf8Len t < usizeSub 4096 hsz then (t, 1) else ("", 0)) := by
  unfold selectBody
  rw [if_pos htp, hbt]
  show (if utf8Len t < usizeSub 4096 hsz then Except.ok (t, 1) else Except.ok ("", 0))
      = Except.ok (if utf8Len t < usizeSub 4096 hsz then (t, 1) else ("", 0))
  by_cases hc : utf8Len t < usizeSub 4096 hsz
  · rw [if_pos hc, if_pos hc]
  · rw [if_neg hc, if_neg hc]

theorem get_id_no_error (srv : MailServer) (n : String) (e : RelayError) :
    get_id srv n ≠ some (Except.error e) := by
  unfold get_id
  by_cases hc : addressCaptures srv.domains n
  · simp [hc]
  · simp only [hc]
    cases tg_get srv.recipients n <;> simp

theorem sendgroupItems_map_fst (msg : String) (l : List Attachment) :
    ∀ pos, (sendgroupItems msg l pos).map Prod.fst = l.map Attachment.name := by
  induction l with
  | nil => intro pos; rfl
  | cons f rest ih => intro pos; simp [sendgroupItems, ih]

theorem sendgroupItems_length (msg : String) (l : List Attachment) :
    ∀ pos, (sendgroupItems msg l pos).length = l.length := by
  induction l with
  | nil => intro pos; rfl
  | cons f rest ih => intro pos; simp [sendgroupItems, ih]

theorem sendgroupItems_get_snd (msg : String) (l : List Attachment) :
    ∀ i < l.length,
      ((sendgroupItems msg l l.length).get? i).map Prod.snd =
        some (if i = l.length - 1 then some msg else none) := by
  induction l with
  | nil => intro i hi; simp at hi
  | cons f rest ih =>
    intro i hi
    have hred : sendgroupItems msg (f :: rest) (f :: rest).length =
        (f.name, if rest.length + 1 = 1 then some msg else none) ::
          sendgroupItems msg rest rest.length := by
      simp [sendgroupItems]
    rw [hred]
    cases i with
    | zero =>
      rcases Nat.eq_zero_or_pos rest.length with h0 | hpos
      · simp [h0]
      · have h1 : ¬ (rest.length + 1 = 1) := by omega
        have h2 : ¬ ((0 : Nat) = (f :: rest).length - 1) := by simp; omega
        simp [h1, h2]
        rw [if_neg (by omega : ¬ (0 : Nat) = rest.length)]
    | succ j =>
      have hj : j < rest.length := by simp at hi; omega
      simp only [List.get?]
      rw [ih j hj]
      by_cases hc : j = rest.length - 1
      · rw [if_pos hc, if_pos (by simp; omega)]
      · rw [if_neg hc, if_neg (by simp; omega)]

/-! ### Claim theorems (resolution and batching) -/

/-- C1: the claim states that an address whose domain matches a configured
domain and whose local part is a mapping key resolves to that mapping
entry. The code cannot do this: its address regex admits only
two-character local parts, so for alice@example.com (mapping alice to 111,
domain example.com configured) the regex does not match, the raw address
is looked up, misses, and get_id returns the default chat 0 instead of
111. (For a two-character mapped local part the code would abort in
caps["name"] instead, compare C2.) This theorem evaluates the code at the
failing input. -/
theorem c1_get_id_ignores_local_part :
    get_id srvAlice "alice@example.com" = some (Except.ok 0) ∧
    lookupA srvAlice.recipients "alice" = some 111 := by
  constructor <;> rfl

/-- C2: the claim states get_id never errs and never panics on any
address. get_id indeed never returns Err, but on any address the regex
does match (two-character local part at a configured domain, here
ab@example.com) the source indexes the nonexistent capture group "name"
and panics. This theorem evaluates the code at the failing input: the
panic is the none result. -/
theorem c2_get_id_panics_on_matched_address :
    get_id srvAB "ab@example.com" = none := by
  rfl

/-- C9: under any policy, whenever Handler::rcpt returns at all (i.e.
get_id does not panic), it returns OK: get_id never returns Err, every
miss falls back to the default chat, and the NO_MAILBOX branch is
unreachable. -/
theorem c9_rcpt_never_rejects (srv : MailServer) (addr : String) (r : Response)
    (h : rcpt srv addr = some r) : r = Response.OK := by
  unfold rcpt at h
  by_cases hr : srv.relay
  · rw [if_pos hr] at h
    injection h with h'
    exact h'.symm
  · rw [if_neg hr] at h
    cases hg : get_id srv addr with
    | none => rw [hg] at h; cases h
    | some x =>
      cases x with
      | ok a => rw [hg] at h; injection h with h'; exact h'.symm
      | error e => exact absurd hg (get_id_no_error srv addr e)

theorem c9_rcpt_never_rejects_witness : Response.OK = Response.OK :=
  c9_rcpt_never_rejects srvAlice "user@elsewhere" Response.OK (by rfl)

/-- C7: validator round-trip. Any text free of the platform closing-block
marker passes through validate unchanged (the source returns the original
input on the success path), and any text containing the marker fails with
the validation error. The parser error predicate is modelled from the
spec, since the HTML fragment parser is an external crate. -/
theorem c7_validate_marker_roundtrip (t : String) :
    (containsSub t tgCloseMarker = false → validate t = Except.ok t) ∧
    (containsSub t tgCloseMarker = true →
      validate t = Except.error "Telegram closing tag found.") := by
  constructor <;> intro h <;> simp [validate, fragment_errors, h, joinSep]

theorem c7_validate_marker_roundtrip_witness :
    validate "plain text" = Except.ok "plain text" ∧
    validate "x</code>y" = Except.error "Telegram closing tag found." :=
  ⟨(c7_validate_marker_roundtrip "plain text").1 (by decide),
   (c7_validate_marker_roundtrip "x</code>y").2 (by decide)⟩

/-- C5: for more than one attachment, sendgroup issues exactly one
SendMediaGroup batch whose items carry the attachments in collection
order, and the composed text is the caption of exactly one item: the last
one. -/
theorem c5_sendgroup_caption_last (media : List Attachment) (msg : String)
    (h : 1 < media.length) :
    sendgroup media msg =
      some (SendAction.mediaGroup (sendgroupItems msg media media.length)) ∧
    (sendgroupItems msg media media.length).map Prod.fst = media.map Attachment.name ∧
    ∀ i < media.length,
      ((sendgroupItems msg media media.length).get? i).map Prod.snd =
        some (if i = media.length - 1 then some msg else none) := by
  refine ⟨?_, sendgroupItems_map_fst msg media media.length,
    sendgroupItems_get_snd msg media⟩
  unfold sendgroup
  rw [if_pos h]

theorem c5_sendgroup_caption_last_witness :
    sendgroup [⟨[97], "a.txt"⟩, ⟨[98], "b.txt"⟩] "cap" =
      some (SendAction.mediaGroup [("a.txt", none), ("b.txt", some "cap")]) :=
  ((c5_sendgroup_caption_last [⟨[97], "a.txt"⟩, ⟨[98], "b.txt"⟩] "cap"
    (by decide)).1).trans (by decide)

/-! ### Claim theorems (composition, diagnostics, dispositions) -/

/-- C3 counterexample: the claim states the selected body passes through
the Content Validator before being embedded, and a validation failure
drops the body. On a message whose only text body is the closing marker
(which validate rejects), relay_mail embeds the marker verbatim in the
rendered message and delivers it with the full body: validate is never
invoked on the delivery path. -/
theorem c3_unvalidated_body_cx :
    relay_mail okO srv3 (some hdr3) (some mail3) =
      some ([TgEvent.send 0 "__*Subject:*__ `Hi`\n\n```\n</code>\n```"], Except.ok ()) ∧
    containsSub "__*Subject:*__ `Hi`\n\n```\n</code>\n```" tgCloseMarker = true ∧
    validate "</code>" = Except.error "Telegram closing tag found." := by
  refine ⟨by decide, by decide, by decide⟩

/-- C3 (amended): the Composer applies no content validation: whenever a
text body exists and fits the size budget it is embedded in the rendered
reply, even when validate rejects it; a validation failure can therefore
neither drop the body nor abort delivery, because validate is unreachable
from relay_mail. -/
theorem c3_composer_skips_validator (fields : List String) (hdrs : SomeHeaders)
    (mail : ParsedMail) (t : String) (e : String)
    (htp : 0 < mail.textParts.length) (hbt : mail.bodyText0 = some t)
    (hfit : utf8Len t < usizeSub 4096 (headerSize fields hdrs mail))
    (_hval : validate t = Except.error e) :
    composeReply fields hdrs mail =
      Except.ok (headerLines fields hdrs mail ++ ["```"] ++ rustLines t ++ ["```"], 1) := by
  unfold composeReply
  rw [selectBody_some mail (headerSize fields hdrs mail) t htp hbt, if_pos hfit]

theorem c3_composer_skips_validator_witness :
    composeReply ["subject"] hdr3 mail3 =
      Except.ok (headerLines ["subject"] hdr3 mail3 ++ ["```"] ++ rustLines "</code>" ++
        ["```"], 1) :=
  c3_composer_skips_validator ["subject"] hdr3 mail3 "</code>" "Telegram closing tag found."
    (by decide) (by decide) (by decide) (by decide)

set_option maxRecDepth 8000 in
/-- C4 counterexample: the claim states that when the first text part does
not fit, the rendered output contains header lines only. On a message
whose body exactly misses the budget, the body is excluded per the size
condition, yet the rendered output is not the header lines alone: the
Composer still pushes an empty preformatted block (two fence lines), and
the unconsumed text part is delivered as a document. -/
theorem c4_headers_only_output_cx :
    relay_mail okO srv3 (some hdr3) (some mail4) =
      some ([TgEvent.sendgroup 0 [⟨[], "Attachment.txt"⟩] "__*Subject:*__ `Hi`\n\n```\n```"],
        Except.ok ()) ∧
    0 < mail4.textParts.length ∧
    ¬ utf8Len t4075 < usizeSub 4096 (headerSize srv3.fields hdr3 mail4) ∧
    "__*Subject:*__ `Hi`\n\n```\n```" ≠ joinSep "\n" (headerLines srv3.fields hdr3 mail4) := by
  have hH : headerSize srv3.fields hdr3 mail4 = 21 := by decide
  have hl : utf8Len t4075 = 4075 := utf8Len_mk_replicate_a 4075
  have hnot : ¬ utf8Len t4075 < usizeSub 4096 (headerSize srv3.fields hdr3 mail4) := by
    rw [hH, hl]; decide
  have hcomp : composeReply srv3.fields hdr3 mail4 =
      Except.ok (["__*Subject:*__ `Hi`", "", "```", "```"], 0) := by
    unfold composeReply
    rw [selectBody_some mail4 (headerSize srv3.fields hdr3 mail4) t4075 (by decide) rfl,
        if_neg hnot]
    decide
  have hres : resolveStage okO srv3 hdr3.to_ = some ([], Except.ok [0]) := by decide
  have hif : mail4.htmlParts = mail4.textParts.length := by decide
  have hrm : relay_mail okO srv3 (some hdr3) (some mail4) =
      relayRest okO srv3 hdr3 mail4 [] [0] := by
    simp only [relay_mail, hres]
    rw [if_pos hif]
  have hrr : relayRest okO srv3 hdr3 mail4 [] [0] =
      some ([TgEvent.sendgroup 0 [⟨[], "Attachment.txt"⟩] "__*Subject:*__ `Hi`\n\n```\n```"],
        Except.ok ()) := by
    unfold relayRest
    rw [hcomp]
    decide
  exact ⟨hrm.trans hrr, by decide, hnot, by decide⟩

/-- C4 (amended): for a message with at least one text body part, the
Composer includes the first text part as the body iff its byte length is
strictly below the usize difference 4096 - header_size (wrapping on
underflow), header_size being the space-joined header length plus one;
otherwise the rendered output is the header lines followed by an empty
preformatted block. -/
theorem c4_body_inclusion_condition (fields : List String) (hdrs : SomeHeaders)
    (mail : ParsedMail) (t : String)
    (htp : 0 < mail.textParts.length) (hbt : mail.bodyText0 = some t) :
    composeReply fields hdrs mail = Except.ok
      (headerLines fields hdrs mail ++ ["```"] ++
        (if utf8Len t < usizeSub 4096 (headerSize fields hdrs mail)
         then rustLines t else []) ++ ["```"],
       if utf8Len t < usizeSub 4096 (headerSize fields hdrs mail) then 1 else 0) := by
  unfold composeReply
  rw [selectBody_some mail (headerSize fields hdrs mail) t htp hbt]
  by_cases hc : utf8Len t < usizeSub 4096 (headerSize fields hdrs mail)
  · rw [if_pos hc, if_pos hc, if_pos hc]
  · rw [if_neg hc, if_neg hc, if_neg hc]
    rfl

theorem c4_body_inclusion_condition_witness :
    composeReply ["subject"] hdr3 mail3 = Except.ok
      (headerLines ["subject"] hdr3 mail3 ++ ["```"] ++
        (if utf8Len "</code>" < usizeSub 4096 (headerSize ["subject"] hdr3 mail3)
         then rustLines "</code>" else []) ++ ["```"],
       if utf8Len "</code>" < usizeSub 4096 (headerSize ["subject"] hdr3 mail3)
       then 1 else 0) :=
  c4_body_inclusion_condition ["subject"] hdr3 mail3 "</code>" (by decide) (by decide)

/-- C6 counterexample: the claim states that an empty envelope-to list
yields exactly the default channel plus one diagnostic regardless of the
unknown-address policy. Under the deny policy, relay_mail instead fails
with the relaying-disabled error, emits no diagnostic and dispatches
nothing. -/
theorem c6_empty_envelope_deny_cx :
    relay_mail okO srvDeny (some hdrEmpty) (some mailEmpty) =
      some ([], Except.error RelayError.relayDenied) := by
  decide

/-- C6 (amended): when the unknown-address policy is relay, an empty
envelope-to list resolves to exactly the singleton default-chat set with
exactly one diagnostic, so the recipient set handed to dispatch is
nonempty; under deny, relay_mail aborts with an error instead (see the
counterexample). -/
theorem c6_empty_envelope_relay_default (o : TgOracle) (srv : MailServer)
    (hr : srv.relay = true) (hd : o.debugOk noRcptMsg = true) :
    resolveStage o srv [] = some ([TgEvent.debug noRcptMsg], Except.ok [srv.default]) := by
  unfold resolveStage resolveLoop
  rw [hr]
  simp [hd]

theorem c6_empty_envelope_relay_default_witness :
    resolveStage okO srv3 [] =
      some ([TgEvent.debug noRcptMsg], Except.ok [(0 : Int)]) :=
  (c6_empty_envelope_relay_default okO srv3 rfl rfl).trans (by decide)

/-- C8 counterexample: the claim states no diagnostic-send failure is ever
propagated into the mail-session disposition or aborts message
processing. The part-count diagnostic inside relay_mail is sent with the
error-propagating operator: on a transport where debug sends fail, the
same message that is accepted (OK, with a delivery send) when diagnostics
succeed is instead aborted before any delivery and answered with the
temporary-failure response. -/
theorem c8_inner_diagnostic_propagates_cx :
    data_end badO srv3 (some hdr3) (some mail8) =
      some (Response.INTERNAL_ERROR,
        [TgEvent.debug (mismatchMsg 1 0),
         TgEvent.debug (failMsg (RelayError.tgFailed (TgEvent.debug (mismatchMsg 1 0))))]) ∧
    data_end okO srv3 (some hdr3) (some mail8) =
      some (Response.OK,
        [TgEvent.debug (mismatchMsg 1 0),
         TgEvent.send 0 "__*Subject:*__ `Hi`\n\n```\n```"]) := by
  refine ⟨by decide, by decide⟩

/-- C8 (amended): the final fallback diagnostic of data_end never raises:
whenever relay_mail fails, the disposition is the temporary-failure
response with the fallback diagnostic attempted, independent of whether
that fallback send succeeds (its failure goes only to the local stderr
sink); diagnostic sends inside relay_mail, however, propagate their
failures (see the counterexample). -/
theorem c8_fallback_reporter_never_raises (o : TgOracle) (srv : MailServer)
    (headers : Option SomeHeaders) (parsed : Option ParsedMail)
    (evs : List TgEvent) (e : RelayError)
    (hrel : relay_mail o srv headers parsed = some (evs, Except.error e)) :
    data_end o srv headers parsed =
      some (Response.INTERNAL_ERROR, evs ++ [TgEvent.debug (failMsg e)]) := by
  unfold data_end
  rw [hrel]

theorem c8_fallback_reporter_never_raises_witness :
    data_end badO srv3 (some hdr3) (some mail8) =
      some (Response.INTERNAL_ERROR,
        [TgEvent.debug (mismatchMsg 1 0)] ++
          [TgEvent.debug (failMsg (RelayError.tgFailed (TgEvent.debug (mismatchMsg 1 0))))]) :=
  c8_fallback_reporter_never_raises badO srv3 (some hdr3) (some mail8)
    [TgEvent.debug (mismatchMsg 1 0)]
    (RelayError.tgFailed (TgEvent.debug (mismatchMsg 1 0))) (by decide)

/-- The rendered header size of the long-subject message: sixteen bytes of
prefix, the 4200 byte subject, the closing backtick, the join space before
the empty short_headers line, plus one. -/
theorem headerSize_mailLong : headerSize srv3.fields hdrX mailLong = 4219 := by
  have hHL : headerLines srv3.fields hdrX mailLong =
      ["__*Subject:*__ `" ++ encode subjLong ++ "`", ""] := rfl
  unfold headerSize
  rw [hHL]
  have hj : joinSep " " ["__*Subject:*__ `" ++ encode subjLong ++ "`", ""] =
      "__*Subject:*__ `" ++ encode subjLong ++ "`" ++ " " ++ "" := rfl
  rw [hj]
  have he : encode subjLong = subjLong := encode_mk_replicate_a 4200
  rw [he]
  rw [utf8Len_append, utf8Len_append, utf8Len_append, utf8Len_append]
  have hs : utf8Len subjLong = 4200 := utf8Len_mk_replicate_a 4200
  rw [hs]
  decide

/-- C10 counterexample: the claim states header_size never exceeds 4096
for messages reaching the body-selection check. A message with a 4200 byte
subject reaches body selection with header_size 4219: the wrapping
subtraction then lets a 4100 byte body (over the whole platform limit)
pass the size check and be selected. -/
theorem c10_header_size_overflow_cx :
    4096 < headerSize srv3.fields hdrX mailLong ∧
    4096 ≤ utf8Len t4100 ∧
    selectBody mailLong (headerSize srv3.fields hdrX mailLong) = Except.ok (t4100, 1) := by
  have hH := headerSize_mailLong
  have hl : utf8Len t4100 = 4100 := utf8Len_mk_replicate_a 4100
  refine ⟨by rw [hH]; decide, by rw [hl]; decide, ?_⟩
  rw [hH, selectBody_some mailLong 4219 t4100 (by decide) rfl,
      if_pos (by rw [hl]; decide)]

/-- C10 (amended): the unguarded usize subtraction 4096 - header_size does
not underflow exactly when header_size is at most 4096, where it agrees
with the mathematical difference; header_size is not bounded by 4096 for
reachable messages, and beyond it the wrapping difference is astronomically
large, so any fetched body passes the size check. -/
theorem c10_unguarded_subtraction :
    (∀ (fields : List String) (hdrs : SomeHeaders) (mail : ParsedMail),
      headerSize fields hdrs mail ≤ 4096 →
      usizeSub 4096 (headerSize fields hdrs mail) = 4096 - headerSize fields hdrs mail) ∧
    (∀ (fields : List String) (hdrs : SomeHeaders) (mail : ParsedMail) (t : String),
      4096 < headerSize fields hdrs mail →
      utf8Len t + headerSize fields hdrs mail < USIZE_MOD + 4096 →
      0 < mail.textParts.length → mail.bodyText0 = some t →
      selectBody mail (headerSize fields hdrs mail) = Except.ok (t, 1)) := by
  constructor
  · intro fields hdrs mail hle
    unfold usizeSub USIZE_MOD
    have h1 : 2 ^ 64 + 4096 - headerSize fields hdrs mail =
        2 ^ 64 + (4096 - headerSize fields hdrs mail) := by omega
    rw [h1, Nat.add_mod_left]
    exact Nat.mod_eq_of_lt (by omega)
  · intro fields hdrs mail t hgt hlt htp hbt
    have hc : utf8Len t < usizeSub 4096 (headerSize fields hdrs mail) := by
      unfold USIZE_MOD at hlt
      unfold usizeSub USIZE_MOD
      rw [Nat.mod_eq_of_lt (by omega)]
      omega
    rw [selectBody_some mail (headerSize fields hdrs mail) t htp hbt, if_pos hc]

theorem c10_unguarded_subtraction_witness :
    usizeSub 4096 (headerSize ["subject"] hdr3 mail3) =
      4096 - headerSize ["subject"] hdr3 mail3 ∧
    selectBody mailLong (headerSize srv3.fields hdrX mailLong) = Except.ok (t4100, 1) :=
  ⟨c10_unguarded_subtraction.1 ["subject"] hdr3 mail3 (by decide),
   c10_unguarded_subtraction.2 srv3.fields hdrX mailLong t4100
     (by rw [headerSize_mailLong]; decide)
     (by
       have hl : utf8Len t4100 = 4100 := utf8Len_mk_replicate_a 4100
       rw [headerSize_mailLong, hl]; decide)
     (by decide) rfl⟩

end Smtp2tg
